import Mathlib

/-!
Verification development for the migration job orchestration engine of
`ai-storage-orchestrator` (Go).  The definitions below are a shallow
embedding of `pkg/controller/migration.go` (the `MigrationController`
pipeline) together with the data model of `pkg/types/migration.go`.

Modelling conventions:
* Go `float64` values are modelled by `GoFloat`: an exact rational for the
  finite case plus IEEE-754 specials (`nan`, signed infinity).  The
  arithmetic appearing in the controller (subtraction, multiplication,
  division) is exact on the small decimal values the program manipulates,
  and division by zero follows IEEE-754 (`0/0 = NaN`, `x/0 = ±Inf`).
* Go `int64` is modelled by `ℤ` (no claim involves 64-bit overflow) and
  `time.Time`/`time.Duration` by `ℕ`/`ℤ` nanosecond counts.
* Collaborator calls on the Kubernetes client (`GetPod`,
  `GetPodContainerStates`, `GetPodMetrics`, `CreatePersistentVolumeClaim`,
  `CreateOptimizedPod`, `WaitForPodReady`, `DeletePod`) are out of scope of
  the core and are modelled by an oracle `Env` giving each call an outcome
  and a time; Go `context.WithTimeout` semantics are modelled by the call
  failing whenever it is issued after the job's deadline has expired.
* `time.Now()` results are supplied by the oracle as explicit fields.
-/

/-- Model of a Go `float64`: exact rationals for finite values together
with the IEEE-754 special values NaN and ±Inf (negative zero is not
distinguished; it plays no role in the translated code). -/
inductive GoFloat where
  | finite (val : ℚ)
  | inf (neg : Bool)
  | nan
  deriving DecidableEq, Repr

/-- IEEE-754 subtraction on the `GoFloat` model. -/
def GoFloat.sub : GoFloat → GoFloat → GoFloat
  | .finite a, .finite b => .finite (a - b)
  | .nan, _ => .nan
  | _, .nan => .nan
  | .inf s, .finite _ => .inf s
  | .finite _, .inf s => .inf (!s)
  | .inf s, .inf t => if s = t then .nan else .inf s

/-- IEEE-754 multiplication on the `GoFloat` model. -/
def GoFloat.mul : GoFloat → GoFloat → GoFloat
  | .finite a, .finite b => .finite (a * b)
  | .nan, _ => .nan
  | _, .nan => .nan
  | .inf s, .finite b =>
      if b = 0 then .nan else .inf (xor s (decide (b < 0)))
  | .finite a, .inf s =>
      if a = 0 then .nan else .inf (xor s (decide (a < 0)))
  | .inf s, .inf t => .inf (xor s t)

/-- IEEE-754 division on the `GoFloat` model: `0/0 = NaN` and `x/0 = ±Inf`
for finite nonzero `x`, exactly as in Go. -/
def GoFloat.div : GoFloat → GoFloat → GoFloat
  | .finite a, .finite b =>
      if b = 0 then (if a = 0 then .nan else .inf (decide (a < 0)))
      else .finite (a / b)
  | .nan, _ => .nan
  | _, .nan => .nan
  | .inf s, .finite b => .inf (xor s (decide (b < 0)))
  | .finite _, .inf _ => .finite 0
  | .inf _, .inf _ => .nan

/-- Whether a `GoFloat` is a finite value (neither NaN nor an infinity). -/
def GoFloat.isFinite : GoFloat → Bool
  | .finite _ => true
  | _ => false

/-- Truncation of a rational toward zero, the semantics of Go's
`int64(someFloat64)` conversion for in-range finite values. -/
def ratTrunc (q : ℚ) : ℤ := q.num.tdiv (q.den : ℤ)

/-- Go type `types.MigrationStatus` (a string enum in the source:
"pending", "running", "completed", "failed", "cancelled"). -/
inductive MigrationStatus where
  | pending
  | running
  | completed
  | failed
  | cancelled
  deriving DecidableEq, Repr

/-- Go struct `types.MigrationRequest`. -/
structure MigrationRequest where
  podName : String
  podNamespace : String
  sourceNode : String
  targetNode : String
  preservePV : Bool
  forceRestart : Bool
  timeout : ℤ
  deriving DecidableEq, Repr

/-- Go struct `types.ContainerState`. -/
structure ContainerState where
  name : String
  state : String
  restartCount : ℤ
  shouldMigrate : Bool
  deriving DecidableEq, Repr

/-- Go struct `types.ResourceUsage`: cpu in fractional cores (`float64`),
memory in bytes (`int64`), and a sample timestamp. -/
structure ResourceUsage where
  cpuUsage : GoFloat
  memoryUsage : ℤ
  timestamp : ℕ
  deriving DecidableEq, Repr

/-- Go struct `types.MigrationDetails`.  `endTime`/`duration` are pointer
fields in the source (`nil` until set), modelled with `Option`. -/
structure MigrationDetails where
  startTime : ℕ
  endTime : Option ℕ
  duration : Option ℤ
  originalResources : Option ResourceUsage
  optimizedResources : Option ResourceUsage
  containerStates : List ContainerState
  checkpointPath : String
  pvClaimName : String
  newPodName : String
  deriving DecidableEq, Repr

/-- Go struct `controller.MigrationJob` (the `ctx`/`cancel` handle is
represented by the deadline carried in the oracle `Env`). -/
structure MigrationJob where
  id : String
  request : MigrationRequest
  status : MigrationStatus
  details : MigrationDetails
  startTime : ℕ
  deriving DecidableEq, Repr

/-- Go struct `types.MigrationMetrics`. -/
structure MigrationMetrics where
  totalMigrations : ℤ
  successfulMigrations : ℤ
  failedMigrations : ℤ
  averageDuration : ℤ
  cpuSavings : GoFloat
  memorySavings : GoFloat
  deriving DecidableEq, Repr

/-- Oracle for one run of `executeMigration`: the raw outcome each
collaborator call would produce were the job's context still live, the
time at which each call is issued, the job's context deadline, and the
`time.Now()` values read by the controller itself. -/
structure Env where
  deadline : ℕ
  timeGetPod1 : ℕ
  timeGetContainerStates : ℕ
  timeGetPodMetricsOrig : ℕ
  timeCreatePVC : ℕ
  timeGetPod2 : ℕ
  timeCreateOptimizedPod : ℕ
  timeWaitForPodReady : ℕ
  timeDeletePod : ℕ
  timeGetPodMetricsNew : ℕ
  rawGetPod1 : Option Unit
  rawGetContainerStates : Option (List ContainerState)
  rawGetPodMetricsOrig : Option ResourceUsage
  rawCreatePVC : Option Unit
  rawGetPod2 : Option Unit
  rawCreateOptimizedPod : Option String
  rawWaitForPodReady : Option Unit
  rawDeletePod : Option Unit
  rawGetPodMetricsNew : Option ResourceUsage
  tDefaultMetrics : ℕ
  checkpointUnix : ℕ
  tFallback : ℕ
  tEnd : ℕ

/-- Effect of the Go context deadline on a collaborator call: a call
issued after the deadline has expired observes the cancelled context and
returns an error (`none`); otherwise the raw outcome stands. -/
def Env.withDeadline (e : Env) (callTime : ℕ) (raw : Option α) : Option α :=
  if e.deadline < callTime then none else raw

/-- Effective outcome of `k8sClient.GetPod` in `captureContainerStates`. -/
def Env.effGetPod1 (e : Env) : Option Unit :=
  e.withDeadline e.timeGetPod1 e.rawGetPod1

/-- Effective outcome of `k8sClient.GetPodContainerStates`. -/
def Env.effGetContainerStates (e : Env) : Option (List ContainerState) :=
  e.withDeadline e.timeGetContainerStates e.rawGetContainerStates

/-- Effective outcome of `k8sClient.GetPodMetrics` on the original pod. -/
def Env.effGetPodMetricsOrig (e : Env) : Option ResourceUsage :=
  e.withDeadline e.timeGetPodMetricsOrig e.rawGetPodMetricsOrig

/-- Effective outcome of `k8sClient.CreatePersistentVolumeClaim`. -/
def Env.effCreatePVC (e : Env) : Option Unit :=
  e.withDeadline e.timeCreatePVC e.rawCreatePVC

/-- Effective outcome of `k8sClient.GetPod` in `createOptimizedPod`. -/
def Env.effGetPod2 (e : Env) : Option Unit :=
  e.withDeadline e.timeGetPod2 e.rawGetPod2

/-- Effective outcome of `k8sClient.CreateOptimizedPod` (the new pod's
name on success). -/
def Env.effCreateOptimizedPod (e : Env) : Option String :=
  e.withDeadline e.timeCreateOptimizedPod e.rawCreateOptimizedPod

/-- Effective outcome of `k8sClient.WaitForPodReady`. -/
def Env.effWaitForPodReady (e : Env) : Option Unit :=
  e.withDeadline e.timeWaitForPodReady e.rawWaitForPodReady

/-- Effective outcome of `k8sClient.DeletePod`. -/
def Env.effDeletePod (e : Env) : Option Unit :=
  e.withDeadline e.timeDeletePod e.rawDeletePod

/-- Effective outcome of `k8sClient.GetPodMetrics` on the new pod. -/
def Env.effGetPodMetricsNew (e : Env) : Option ResourceUsage :=
  e.withDeadline e.timeGetPodMetricsNew e.rawGetPodMetricsNew

/-- Pipeline steps of `executeMigration`, in source order.  Step 2 runs
only when the request sets `PreservePV`. -/
inductive Step where
  | captureStates
  | createCheckpointStep
  | createOptimizedPodStep
  | deleteOriginalPodStep
  | collectPostMetricsStep
  deriving DecidableEq, Repr

/-- Result of one run of `executeMigration`: the final job record, the
final process-wide metrics, the pipeline steps that were entered, and the
sequence of `Status` values written (in order) during the run. -/
structure ExecResult where
  job : MigrationJob
  metrics : MigrationMetrics
  steps : List Step
  statusWrites : List MigrationStatus
  deriving DecidableEq, Repr

/-- Go `updateJobStatus`: writes the job's status under the registry
lock. -/
def updateJobStatus (job : MigrationJob) (status : MigrationStatus) : MigrationJob :=
  { job with status := status }

/-- Go `captureContainerStates` (step 1): pod lookup and container-state
analysis are fail-fast; a metrics-collection failure degrades to a
zero-value sample with the current time stamp.  No field of the job is
mutated before an error return in the source, so `Option MigrationJob`
captures its effect exactly. -/
def captureContainerStates (env : Env) (job : MigrationJob) : Option MigrationJob :=
  match env.effGetPod1 with
  | none => none
  | some _ =>
    match env.effGetContainerStates with
    | none => none
    | some containerStates =>
      let job := { job with details := { job.details with containerStates := containerStates } }
      let metrics : ResourceUsage :=
        match env.effGetPodMetricsOrig with
        | none =>
            { cpuUsage := .finite 0, memoryUsage := 0, timestamp := env.tDefaultMetrics }
        | some m => m
      some { job with details := { job.details with originalResources := some metrics } }

/-- Go `createCheckpoint` (step 2): builds the checkpoint name from the
pod name and the current Unix time, then creates the PVC; returns the
checkpoint name on success. -/
def createCheckpoint (env : Env) (job : MigrationJob) : Option String :=
  let checkpointName :=
    "checkpoint-" ++ job.request.podName ++ "-" ++ toString env.checkpointUnix
  match env.effCreatePVC with
  | none => none
  | some _ => some checkpointName

/-- Go `createOptimizedPod` (step 3): original-pod lookup, optimized-pod
creation and the readiness wait are each fail-fast; on success the new
pod's name is recorded in the details.  The checkpoint PVC name is passed
through to the collaborator (its effect lives in the oracle). -/
def createOptimizedPod (env : Env) (job : MigrationJob) (_checkpointPVC : String) :
    Option MigrationJob :=
  match env.effGetPod2 with
  | none => none
  | some _ =>
    match env.effCreateOptimizedPod with
    | none => none
    | some newPodName =>
      match env.effWaitForPodReady with
      | none => none
      | some _ =>
        some { job with details := { job.details with newPodName := newPodName } }

/-- Go `deleteOriginalPod` (step 4): a single collaborator call; the
caller only logs a failure. -/
def deleteOriginalPod (env : Env) (_job : MigrationJob) : Option Unit :=
  env.effDeletePod

/-- Go fallback sample construction in `collectPostMigrationMetrics`:
cpu scaled by `0.5`, memory by `0.6` and truncated to `int64`, stamped
with the current time. -/
def estimatedUsage (env : Env) (original : ResourceUsage) : ResourceUsage :=
  { cpuUsage := original.cpuUsage.mul (.finite (1 / 2))
  , memoryUsage := ratTrunc ((original.memoryUsage : ℚ) * (6 / 10))
  , timestamp := env.tFallback }

/-- Go `collectPostMigrationMetrics` (step 5): samples the new pod's
usage when its name is known; on sampling failure (or a missing name)
falls back to the ratio-based estimate, provided an original sample
exists.  The source returns `nil` on every path, so the function is
total on jobs. -/
def collectPostMigrationMetrics (env : Env) (job : MigrationJob) : MigrationJob :=
  if job.details.newPodName ≠ "" then
    match env.effGetPodMetricsNew with
    | none =>
      match job.details.originalResources with
      | some original =>
          { job with details :=
              { job.details with optimizedResources := some (estimatedUsage env original) } }
      | none => job
    | some metrics =>
        { job with details := { job.details with optimizedResources := some metrics } }
  else
    match job.details.originalResources with
    | some original =>
        { job with details :=
            { job.details with optimizedResources := some (estimatedUsage env original) } }
    | none => job

/-- Go `failMigration`: terminal `failed` transition — writes the status,
stamps `EndTime`/`Duration`, and increments `FailedMigrations` (and no
other counter). -/
def failMigration (env : Env) (job : MigrationJob) (m : MigrationMetrics) :
    MigrationJob × MigrationMetrics :=
  let endTime := env.tEnd
  let duration : ℤ := (endTime : ℤ) - (job.startTime : ℤ)
  ( { job with
        status := .failed
      , details := { job.details with endTime := some endTime, duration := some duration } }
  , { m with failedMigrations := m.failedMigrations + 1 } )

/-- Go `completeMigration`: terminal `completed` transition — writes the
status, stamps `EndTime`/`Duration`, increments `TotalMigrations` and
`SuccessfulMigrations`, folds the duration into the running average
(Go integer division truncates toward zero, `Int.tdiv`), and computes
savings percentages when both resource samples are present. -/
def completeMigration (env : Env) (job : MigrationJob) (m : MigrationMetrics) :
    MigrationJob × MigrationMetrics :=
  let endTime := env.tEnd
  let duration : ℤ := (endTime : ℤ) - (job.startTime : ℤ)
  let job := { job with
      status := .completed
    , details := { job.details with endTime := some endTime, duration := some duration } }
  let m := { m with
      totalMigrations := m.totalMigrations + 1
    , successfulMigrations := m.successfulMigrations + 1 }
  let m :=
    if 0 < m.totalMigrations then
      { m with averageDuration :=
          (m.averageDuration * (m.totalMigrations - 1) + duration).tdiv m.totalMigrations }
    else m
  let m :=
    match job.details.originalResources, job.details.optimizedResources with
    | some original, some optimized =>
        let cpuSavings :=
          ((original.cpuUsage.sub optimized.cpuUsage).div original.cpuUsage).mul (.finite 100)
        let memorySavings :=
          ((GoFloat.finite ((original.memoryUsage - optimized.memoryUsage : ℤ) : ℚ)).div
              (.finite (original.memoryUsage : ℚ))).mul (.finite 100)
        { m with cpuSavings := cpuSavings, memorySavings := memorySavings }
    | _, _ => m
  (job, m)

/-- Steps 3–5 of `executeMigration` followed by the terminal transition:
step 3 is fail-fast, steps 4 and 5 are best-effort (their outcomes are
logged and otherwise ignored), then `completeMigration` runs. -/
def execFromStep3 (env : Env) (job : MigrationJob) (m : MigrationMetrics)
    (checkpointPVC : String) (stepsDone : List Step) : ExecResult :=
  match createOptimizedPod env job checkpointPVC with
  | none =>
      let failed := failMigration env job m
      { job := failed.1, metrics := failed.2
      , steps := stepsDone ++ [.createOptimizedPodStep]
      , statusWrites := [.running, .failed] }
  | some job3 =>
      let _ := deleteOriginalPod env job3
      let job5 := collectPostMigrationMetrics env job3
      let done := completeMigration env job5 m
      { job := done.1, metrics := done.2
      , steps := stepsDone ++
          [.createOptimizedPodStep, .deleteOriginalPodStep, .collectPostMetricsStep]
      , statusWrites := [.running, .completed] }

/-- Go `executeMigration`: sets the status to `running`, then runs the
five-step pipeline with the mixed fail-fast/best-effort policy of the
source, ending in exactly one terminal transition. -/
def executeMigration (env : Env) (job0 : MigrationJob) (m0 : MigrationMetrics) : ExecResult :=
  let job := updateJobStatus job0 .running
  match captureContainerStates env job with
  | none =>
      let failed := failMigration env job m0
      { job := failed.1, metrics := failed.2
      , steps := [.captureStates], statusWrites := [.running, .failed] }
  | some job1 =>
    if job1.request.preservePV then
      match createCheckpoint env job1 with
      | none =>
          let failed := failMigration env job1 m0
          { job := failed.1, metrics := failed.2
          , steps := [.captureStates, .createCheckpointStep]
          , statusWrites := [.running, .failed] }
      | some checkpointPVC =>
          let job2 := { job1 with details :=
              { job1.details with checkpointPath := checkpointPVC, pvClaimName := checkpointPVC } }
          execFromStep3 env job2 m0 checkpointPVC
            [.captureStates, .createCheckpointStep]
    else
      execFromStep3 env job1 m0 "" [.captureStates]

/-- Go `StartMigration`'s job construction: a fresh job starts `pending`
with both `StartTime` fields taken from `time.Now()` (two separate calls
in the source, hence two time parameters) and empty details. -/
def newMigrationJob (id : String) (req : MigrationRequest) (tJob tDetails : ℕ) : MigrationJob :=
  { id := id
  , request := req
  , status := .pending
  , startTime := tJob
  , details :=
      { startTime := tDetails
      , endTime := none
      , duration := none
      , originalResources := none
      , optimizedResources := none
      , containerStates := []
      , checkpointPath := ""
      , pvClaimName := ""
      , newPodName := "" } }

/-- Go `StartMigration`'s registry write `mc.migrations[migrationID] = job`:
an unconditional map store (the source performs no existence check before
writing). -/
def registerJob (migrations : String → Option MigrationJob) (id : String)
    (job : MigrationJob) : String → Option MigrationJob :=
  fun key => if key = id then some job else migrations key

/-- Go `NewMigrationController`'s zero-value metrics. -/
def initialMetrics : MigrationMetrics :=
  { totalMigrations := 0
  , successfulMigrations := 0
  , failedMigrations := 0
  , averageDuration := 0
  , cpuSavings := .finite 0
  , memorySavings := .finite 0 }

/-- Specification-side notion of the fail-fast points of the pipeline
(step/policy table of the spec): the pod lookup and container-state
analysis of step 1, checkpoint creation of step 2, and the
lookup/creation/readiness calls of step 3. -/
inductive FailFastPoint where
  | atCapture
  | atCheckpoint
  | atCreatePod
  deriving DecidableEq, Repr

/-- Specification-side description of the first fail-fast failure of a
run, if any, in terms of the effective collaborator outcomes (a metrics
collection failure in step 1 is explicitly not fail-fast). -/
def specFirstFailFast (env : Env) (req : MigrationRequest) : Option FailFastPoint :=
  if env.effGetPod1.isNone || env.effGetContainerStates.isNone then
    some .atCapture
  else if req.preservePV && env.effCreatePVC.isNone then
    some .atCheckpoint
  else if env.effGetPod2.isNone || env.effCreateOptimizedPod.isNone ||
      env.effWaitForPodReady.isNone then
    some .atCreatePod
  else
    none

/-- Specification-side description of which pipeline steps a run enters:
all steps up to and including the first fail-fast failure, or every step
of the pipeline (step 2 only when `PreservePV` is set). -/
def specExpectedSteps (env : Env) (req : MigrationRequest) : List Step :=
  match specFirstFailFast env req with
  | some .atCapture => [.captureStates]
  | some .atCheckpoint => [.captureStates, .createCheckpointStep]
  | some .atCreatePod =>
      if req.preservePV then
        [.captureStates, .createCheckpointStep, .createOptimizedPodStep]
      else
        [.captureStates, .createOptimizedPodStep]
  | none =>
      if req.preservePV then
        [.captureStates, .createCheckpointStep, .createOptimizedPodStep,
         .deleteOriginalPodStep, .collectPostMetricsStep]
      else
        [.captureStates, .createOptimizedPodStep,
         .deleteOriginalPodStep, .collectPostMetricsStep]

/-- Specification-side rank of a status in the partial order
`pending < running < terminal` stated by the spec. -/
def specStatusRank : MigrationStatus → ℕ
  | .pending => 0
  | .running => 1
  | .completed => 2
  | .failed => 2
  | .cancelled => 2

/-- Specification-side terminal-status predicate. -/
def specIsTerminal : MigrationStatus → Bool
  | .completed => true
  | .failed => true
  | _ => false

/-- Concrete request used by witnesses and counterexamples (mirrors the
spec's end-to-end scenario). -/
def sampleRequest : MigrationRequest :=
  { podName := "p1"
  , podNamespace := "default"
  , sourceNode := "n1"
  , targetNode := "n2"
  , preservePV := true
  , forceRestart := false
  , timeout := 0 }

/-- Concrete freshly registered job (status `pending`). -/
def sampleJob : MigrationJob := newMigrationJob "migration-1a2b3c4d" sampleRequest 100 101

/-- Concrete container classification result for the sample pod. -/
def sampleStates : List ContainerState :=
  [ { name := "c1", state := "running", restartCount := 0, shouldMigrate := true }
  , { name := "c2", state := "completed", restartCount := 0, shouldMigrate := false } ]

/-- Concrete original resource sample: 2.0 cores, 1000 bytes. -/
def origSample : ResourceUsage :=
  { cpuUsage := .finite 2, memoryUsage := 1000, timestamp := 150 }

/-- Concrete measured optimized sample: 1.0 cores, 600 bytes. -/
def optSample : ResourceUsage :=
  { cpuUsage := .finite 1, memoryUsage := 600, timestamp := 171 }

/-- Oracle for a fully successful run: every collaborator call happens
before the deadline and succeeds. -/
def envAllOk : Env :=
  { deadline := 1000
  , timeGetPod1 := 110
  , timeGetContainerStates := 111
  , timeGetPodMetricsOrig := 112
  , timeCreatePVC := 120
  , timeGetPod2 := 130
  , timeCreateOptimizedPod := 131
  , timeWaitForPodReady := 140
  , timeDeletePod := 150
  , timeGetPodMetricsNew := 160
  , rawGetPod1 := some ()
  , rawGetContainerStates := some sampleStates
  , rawGetPodMetricsOrig := some origSample
  , rawCreatePVC := some ()
  , rawGetPod2 := some ()
  , rawCreateOptimizedPod := some "p1-migrated"
  , rawWaitForPodReady := some ()
  , rawDeletePod := some ()
  , rawGetPodMetricsNew := some optSample
  , tDefaultMetrics := 113
  , checkpointUnix := 119
  , tFallback := 171
  , tEnd := 200 }

/-- Oracle where the deadline (145) expires after the last fail-fast step
(step 3 ends at 140) but before the best-effort steps (150, 160) and the
terminal transition (200). -/
def envLateExpiry : Env := { envAllOk with deadline := 145 }

/-- Oracle where the initial pod lookup fails. -/
def envPodLookupFails : Env := { envAllOk with rawGetPod1 := none }

/-- Oracle where both best-effort steps fail (deletion and post-migration
sampling). -/
def envBestEffortFail : Env :=
  { envAllOk with rawDeletePod := none, rawGetPodMetricsNew := none }

/-- Oracle where post-migration sampling fails, forcing the estimate
path. -/
def envEstimate : Env := { envAllOk with rawGetPodMetricsNew := none }

/-- Oracle where post-migration sampling succeeds and happens to measure
exactly the values of the ratio-based estimate, with the same time
stamp. -/
def envMeasured : Env :=
  { envAllOk with rawGetPodMetricsNew := some optSample }

/-- Oracle where both the original and the new pod's metrics collection
fail: step 1 then records the zero-value default sample. -/
def envZeroOriginal : Env :=
  { envAllOk with rawGetPodMetricsOrig := none, rawGetPodMetricsNew := none }

/-- Concrete job state after step 3: new pod name recorded, original
sample present. -/
def jobWithOrig : MigrationJob :=
  { sampleJob with details :=
      { sampleJob.details with
          originalResources := some origSample
        , newPodName := "p1-migrated" } }

/-- Concrete job state with both resource samples present. -/
def jobBothSamples : MigrationJob :=
  { jobWithOrig with details :=
      { jobWithOrig.details with optimizedResources := some optSample } }

/-- Second job stored under the same ID as `sampleJob` (different
creation times). -/
def jobOther : MigrationJob := newMigrationJob "migration-1a2b3c4d" sampleRequest 200 201

/-- Registry holding `sampleJob` under its ID. -/
def registryWithSample : String → Option MigrationJob :=
  registerJob (fun _ => none) "migration-1a2b3c4d" sampleJob

/-- Projection facts about `failMigration`: the terminal status, the time
stamps, and the metrics fields it touches (only `FailedMigrations`). -/
theorem failMigration_spec (env : Env) (job : MigrationJob) (m : MigrationMetrics) :
    (failMigration env job m).1.status = .failed
    ∧ (failMigration env job m).1.details.endTime = some env.tEnd
    ∧ (failMigration env job m).1.details.duration =
        some ((env.tEnd : ℤ) - (job.startTime : ℤ))
    ∧ (failMigration env job m).2.failedMigrations = m.failedMigrations + 1
    ∧ (failMigration env job m).2.totalMigrations = m.totalMigrations
    ∧ (failMigration env job m).2.successfulMigrations = m.successfulMigrations
    ∧ (failMigration env job m).2.averageDuration = m.averageDuration
    ∧ (failMigration env job m).2.cpuSavings = m.cpuSavings
    ∧ (failMigration env job m).2.memorySavings = m.memorySavings := by
  refine ⟨rfl, rfl, rfl, rfl, rfl, rfl, rfl, rfl, rfl⟩

/-- Projection facts about `completeMigration` that do not depend on the
resource samples: terminal status, time stamps, and the counter
increments (`TotalMigrations` and `SuccessfulMigrations` each by one,
`FailedMigrations` untouched). -/
theorem completeMigration_spec (env : Env) (job : MigrationJob) (m : MigrationMetrics) :
    (completeMigration env job m).1.status = .completed
    ∧ (completeMigration env job m).1.details.endTime = some env.tEnd
    ∧ (completeMigration env job m).1.details.duration =
        some ((env.tEnd : ℤ) - (job.startTime : ℤ))
    ∧ (completeMigration env job m).2.totalMigrations = m.totalMigrations + 1
    ∧ (completeMigration env job m).2.successfulMigrations = m.successfulMigrations + 1
    ∧ (completeMigration env job m).2.failedMigrations = m.failedMigrations := by
  unfold completeMigration
  dsimp only
  rcases job.details.originalResources with _ | o <;>
    rcases job.details.optimizedResources with _ | p <;>
      (split <;> (try split) <;> simp)

/-- Status component of `failMigration`, as a rewriting aid. -/
theorem failMigration_fst_status (env : Env) (job : MigrationJob) (m : MigrationMetrics) :
    (failMigration env job m).1.status = .failed := rfl

/-- Status component of `completeMigration`, as a rewriting aid. -/
theorem completeMigration_fst_status (env : Env) (job : MigrationJob) (m : MigrationMetrics) :
    (completeMigration env job m).1.status = .completed := rfl

/-- Characterization of a full `executeMigration` run: the final status is
`failed` exactly when some fail-fast call errored, the steps entered are
exactly those up to the first fail-fast failure (or all of them), the
status writes are `running` followed by the final status, and the final
status is terminal. -/
theorem exec_characterization (env : Env) (job0 : MigrationJob) (m0 : MigrationMetrics) :
    ((executeMigration env job0 m0).job.status = .failed ↔
        (specFirstFailFast env job0.request).isSome = true)
    ∧ (executeMigration env job0 m0).steps = specExpectedSteps env job0.request
    ∧ (executeMigration env job0 m0).statusWrites =
        [.running, (executeMigration env job0 m0).job.status]
    ∧ ((executeMigration env job0 m0).job.status = .completed ∨
        (executeMigration env job0 m0).job.status = .failed) := by
  cases h1 : env.effGetPod1 <;>
    cases h2 : env.effGetContainerStates <;>
      cases h3 : env.effCreatePVC <;>
        cases h4 : env.effGetPod2 <;>
          cases h5 : env.effCreateOptimizedPod <;>
            cases h6 : env.effWaitForPodReady <;>
              cases hp : job0.request.preservePV <;>
                simp [executeMigration, execFromStep3, captureContainerStates,
                  createCheckpoint, createOptimizedPod, updateJobStatus,
                  specFirstFailFast, specExpectedSteps,
                  failMigration_fst_status, completeMigration_fst_status,
                  h1, h2, h3, h4, h5, h6, hp]

/-- Time-stamp components of `failMigration`, as rewriting aids. -/
theorem failMigration_fst_endTime (env : Env) (job : MigrationJob) (m : MigrationMetrics) :
    (failMigration env job m).1.details.endTime = some env.tEnd := rfl

/-- Duration component of `failMigration`, as a rewriting aid. -/
theorem failMigration_fst_duration (env : Env) (job : MigrationJob) (m : MigrationMetrics) :
    (failMigration env job m).1.details.duration =
      some ((env.tEnd : ℤ) - (job.startTime : ℤ)) := rfl

/-- Metrics components of `failMigration`: only `FailedMigrations`
changes. -/
theorem failMigration_snd_total (env : Env) (job : MigrationJob) (m : MigrationMetrics) :
    (failMigration env job m).2.totalMigrations = m.totalMigrations := rfl

/-- Successful-count component of `failMigration`. -/
theorem failMigration_snd_succ (env : Env) (job : MigrationJob) (m : MigrationMetrics) :
    (failMigration env job m).2.successfulMigrations = m.successfulMigrations := rfl

/-- Failed-count component of `failMigration`. -/
theorem failMigration_snd_failed (env : Env) (job : MigrationJob) (m : MigrationMetrics) :
    (failMigration env job m).2.failedMigrations = m.failedMigrations + 1 := rfl

/-- Average-duration component of `failMigration`. -/
theorem failMigration_snd_avg (env : Env) (job : MigrationJob) (m : MigrationMetrics) :
    (failMigration env job m).2.averageDuration = m.averageDuration := rfl

/-- Time-stamp components of `completeMigration`, as rewriting aids. -/
theorem completeMigration_fst_endTime (env : Env) (job : MigrationJob) (m : MigrationMetrics) :
    (completeMigration env job m).1.details.endTime = some env.tEnd := rfl

/-- Duration component of `completeMigration`, as a rewriting aid. -/
theorem completeMigration_fst_duration (env : Env) (job : MigrationJob) (m : MigrationMetrics) :
    (completeMigration env job m).1.details.duration =
      some ((env.tEnd : ℤ) - (job.startTime : ℤ)) := rfl

/-- Total-count component of `completeMigration`. -/
theorem completeMigration_snd_total (env : Env) (job : MigrationJob) (m : MigrationMetrics) :
    (completeMigration env job m).2.totalMigrations = m.totalMigrations + 1 :=
  (completeMigration_spec env job m).2.2.2.1

/-- Successful-count component of `completeMigration`. -/
theorem completeMigration_snd_succ (env : Env) (job : MigrationJob) (m : MigrationMetrics) :
    (completeMigration env job m).2.successfulMigrations = m.successfulMigrations + 1 :=
  (completeMigration_spec env job m).2.2.2.2.1

/-- Failed-count component of `completeMigration`. -/
theorem completeMigration_snd_failed (env : Env) (job : MigrationJob) (m : MigrationMetrics) :
    (completeMigration env job m).2.failedMigrations = m.failedMigrations :=
  (completeMigration_spec env job m).2.2.2.2.2

/-- Average-duration component of `completeMigration` when the incoming
total count is non-negative (always the case for the process counters,
which start at zero): the running average folds the new duration in with
divisor `TotalMigrations` (after its increment). -/
theorem completeMigration_snd_avg (env : Env) (job : MigrationJob) (m : MigrationMetrics)
    (h : 0 ≤ m.totalMigrations) :
    (completeMigration env job m).2.averageDuration =
      (m.averageDuration * (m.totalMigrations + 1 - 1) +
        ((env.tEnd : ℤ) - (job.startTime : ℤ))).tdiv (m.totalMigrations + 1) := by
  have hpos : 0 < m.totalMigrations + 1 := by omega
  unfold completeMigration
  dsimp only
  rcases job.details.originalResources with _ | o <;>
    rcases job.details.optimizedResources with _ | p <;>
      simp [hpos]

/-- Fields of the job that `collectPostMigrationMetrics` never writes:
every branch of the source only assigns `Details.OptimizedResources`. -/
theorem collect_preserves (env : Env) (job : MigrationJob) :
    (collectPostMigrationMetrics env job).startTime = job.startTime
    ∧ (collectPostMigrationMetrics env job).status = job.status
    ∧ (collectPostMigrationMetrics env job).details.endTime = job.details.endTime
    ∧ (collectPostMigrationMetrics env job).details.duration = job.details.duration
    ∧ (collectPostMigrationMetrics env job).details.originalResources =
        job.details.originalResources := by
  unfold collectPostMigrationMetrics
  split <;> (try split) <;> (try split) <;> simp

/-- Start-time preservation by `collectPostMigrationMetrics`. -/
theorem collect_startTime (env : Env) (job : MigrationJob) :
    (collectPostMigrationMetrics env job).startTime = job.startTime :=
  (collect_preserves env job).1

/-- End-time preservation by `collectPostMigrationMetrics`. -/
theorem collect_endTime (env : Env) (job : MigrationJob) :
    (collectPostMigrationMetrics env job).details.endTime = job.details.endTime :=
  (collect_preserves env job).2.2.1

/-- Duration preservation by `collectPostMigrationMetrics`. -/
theorem collect_duration (env : Env) (job : MigrationJob) :
    (collectPostMigrationMetrics env job).details.duration = job.details.duration :=
  (collect_preserves env job).2.2.2.1

/-- Original-sample preservation by `collectPostMigrationMetrics`. -/
theorem collect_origRes (env : Env) (job : MigrationJob) :
    (collectPostMigrationMetrics env job).details.originalResources =
      job.details.originalResources :=
  (collect_preserves env job).2.2.2.2

/-- Every run of `executeMigration` ends in a terminal transition that
stamps `EndTime` with the transition's `time.Now()` value and `Duration`
with `EndTime − job.StartTime`. -/
theorem exec_times (env : Env) (job0 : MigrationJob) (m0 : MigrationMetrics) :
    (executeMigration env job0 m0).job.details.endTime = some env.tEnd
    ∧ (executeMigration env job0 m0).job.details.duration =
        some ((env.tEnd : ℤ) - (job0.startTime : ℤ)) := by
  cases h1 : env.effGetPod1 <;>
    cases h2 : env.effGetContainerStates <;>
      cases h3 : env.effCreatePVC <;>
        cases h4 : env.effGetPod2 <;>
          cases h5 : env.effCreateOptimizedPod <;>
            cases h6 : env.effWaitForPodReady <;>
              cases hp : job0.request.preservePV <;>
                simp [executeMigration, execFromStep3, captureContainerStates,
                  createCheckpoint, createOptimizedPod, updateJobStatus,
                  failMigration_fst_endTime, failMigration_fst_duration,
                  completeMigration_fst_endTime, completeMigration_fst_duration,
                  collect_startTime, h1, h2, h3, h4, h5, h6, hp]

/-- Counter bookkeeping of a run: `TotalMigrations` and
`SuccessfulMigrations` grow by one exactly on a `completed` outcome,
`FailedMigrations` grows by one exactly on a `failed` outcome. -/
theorem exec_counters (env : Env) (job0 : MigrationJob) (m0 : MigrationMetrics) :
    (executeMigration env job0 m0).metrics.totalMigrations =
      m0.totalMigrations +
        (if (executeMigration env job0 m0).job.status = .completed then 1 else 0)
    ∧ (executeMigration env job0 m0).metrics.successfulMigrations =
      m0.successfulMigrations +
        (if (executeMigration env job0 m0).job.status = .completed then 1 else 0)
    ∧ (executeMigration env job0 m0).metrics.failedMigrations =
      m0.failedMigrations +
        (if (executeMigration env job0 m0).job.status = .failed then 1 else 0) := by
  cases h1 : env.effGetPod1 <;>
    cases h2 : env.effGetContainerStates <;>
      cases h3 : env.effCreatePVC <;>
        cases h4 : env.effGetPod2 <;>
          cases h5 : env.effCreateOptimizedPod <;>
            cases h6 : env.effWaitForPodReady <;>
              cases hp : job0.request.preservePV <;>
                simp [executeMigration, execFromStep3, captureContainerStates,
                  createCheckpoint, createOptimizedPod, updateJobStatus,
                  failMigration_fst_status, completeMigration_fst_status,
                  failMigration_snd_total, failMigration_snd_succ, failMigration_snd_failed,
                  completeMigration_snd_total, completeMigration_snd_succ,
                  completeMigration_snd_failed, h1, h2, h3, h4, h5, h6, hp]

/-- Average-duration bookkeeping of a run: a `failed` outcome leaves the
running average untouched, a `completed` outcome folds the new duration
in with divisor `TotalMigrations` (after its increment). -/
theorem exec_avg (env : Env) (job0 : MigrationJob) (m0 : MigrationMetrics)
    (h : 0 ≤ m0.totalMigrations) :
    (executeMigration env job0 m0).metrics.averageDuration =
      (if (executeMigration env job0 m0).job.status = .completed then
        (m0.averageDuration * (m0.totalMigrations + 1 - 1) +
          ((env.tEnd : ℤ) - (job0.startTime : ℤ))).tdiv (m0.totalMigrations + 1)
      else m0.averageDuration) := by
  cases h1 : env.effGetPod1 <;>
    cases h2 : env.effGetContainerStates <;>
      cases h3 : env.effCreatePVC <;>
        cases h4 : env.effGetPod2 <;>
          cases h5 : env.effCreateOptimizedPod <;>
            cases h6 : env.effWaitForPodReady <;>
              cases hp : job0.request.preservePV <;>
                simp [executeMigration, execFromStep3, captureContainerStates,
                  createCheckpoint, createOptimizedPod, updateJobStatus,
                  failMigration_fst_status, completeMigration_fst_status,
                  failMigration_snd_avg, completeMigration_snd_avg,
                  collect_startTime, h, h1, h2, h3, h4, h5, h6, hp]

/-- Savings computation of `completeMigration` when both resource samples
are present: cpu and memory savings each follow
`(original − optimized) / original × 100` in `float64` arithmetic (memory
is subtracted as `int64` first, then converted). -/
theorem completeMigration_savings_both (env : Env) (job : MigrationJob)
    (m : MigrationMetrics) (o p : ResourceUsage)
    (ho : job.details.originalResources = some o)
    (hp : job.details.optimizedResources = some p) :
    (completeMigration env job m).2.cpuSavings =
      ((o.cpuUsage.sub p.cpuUsage).div o.cpuUsage).mul (.finite 100)
    ∧ (completeMigration env job m).2.memorySavings =
      ((GoFloat.finite ((o.memoryUsage - p.memoryUsage : ℤ) : ℚ)).div
          (.finite (o.memoryUsage : ℚ))).mul (.finite 100) := by
  unfold completeMigration
  dsimp only
  rw [ho, hp]
  exact ⟨rfl, rfl⟩

/-- Savings fields of `completeMigration` are left untouched when either
resource sample is absent. -/
theorem completeMigration_savings_absent (env : Env) (job : MigrationJob)
    (m : MigrationMetrics)
    (h : job.details.originalResources = none ∨ job.details.optimizedResources = none) :
    (completeMigration env job m).2.cpuSavings = m.cpuSavings
    ∧ (completeMigration env job m).2.memorySavings = m.memorySavings := by
  unfold completeMigration
  dsimp only
  rcases ho : job.details.originalResources with _ | o <;>
    rcases hpo : job.details.optimizedResources with _ | p <;>
      simp_all [apply_ite MigrationMetrics.cpuSavings, apply_ite MigrationMetrics.memorySavings]

/-- Fields of the job that `captureContainerStates` never writes on its
success path: `EndTime` and `Duration` stay untouched. -/
theorem capture_preserves (env : Env) (j j' : MigrationJob)
    (h : captureContainerStates env j = some j') :
    j'.details.endTime = j.details.endTime ∧ j'.details.duration = j.details.duration := by
  unfold captureContainerStates at h
  rcases he1 : env.effGetPod1 with _ | u1 <;> rw [he1] at h
  · exact Option.noConfusion h
  · rcases he2 : env.effGetContainerStates with _ | cs <;> rw [he2] at h
    · exact Option.noConfusion h
    · dsimp only at h
      rw [Option.some.injEq] at h
      subst h
      exact ⟨rfl, rfl⟩

/-- Fields of the job that `createOptimizedPod` never writes on its
success path: `EndTime` and `Duration` stay untouched. -/
theorem createOpt_preserves (env : Env) (j : MigrationJob) (pvc : String) (j' : MigrationJob)
    (h : createOptimizedPod env j pvc = some j') :
    j'.details.endTime = j.details.endTime ∧ j'.details.duration = j.details.duration := by
  unfold createOptimizedPod at h
  rcases he4 : env.effGetPod2 with _ | u4 <;> rw [he4] at h
  · exact Option.noConfusion h
  · rcases he5 : env.effCreateOptimizedPod with _ | nm <;> rw [he5] at h
    · exact Option.noConfusion h
    · rcases he6 : env.effWaitForPodReady with _ | u6 <;> rw [he6] at h
      · exact Option.noConfusion h
      · dsimp only at h
        rw [Option.some.injEq] at h
        subst h
        exact ⟨rfl, rfl⟩

/-- Claim C1 (amended): for every job, the pipeline transitions
`running→failed` exactly when some fail-fast step (capture, checkpoint
when requested, optimized-pod creation/readiness) returns an error —
deadline expiry surfaces only through the error of a collaborator call
issued after expiry — and no later pipeline step executes after such a
failure: the steps entered are exactly those up to the first fail-fast
failure.  (The original claim's "a job whose deadline has expired never
reaches completed" is refuted separately: expiry after the last
fail-fast step does not prevent completion.) -/
theorem migration_failFast_characterization (env : Env) (job0 : MigrationJob)
    (m0 : MigrationMetrics) :
    ((executeMigration env job0 m0).job.status = .failed ↔
        (specFirstFailFast env job0.request).isSome = true)
    ∧ (executeMigration env job0 m0).steps = specExpectedSteps env job0.request :=
  ⟨(exec_characterization env job0 m0).1, (exec_characterization env job0 m0).2.1⟩

/-- Witness for claim C1's amended theorem at a concrete all-success
run. -/
theorem migration_failFast_characterization_witness :
    ((executeMigration envAllOk sampleJob initialMetrics).job.status = .failed ↔
        (specFirstFailFast envAllOk sampleJob.request).isSome = true)
    ∧ (executeMigration envAllOk sampleJob initialMetrics).steps =
        specExpectedSteps envAllOk sampleJob.request :=
  migration_failFast_characterization envAllOk sampleJob initialMetrics

/-- Claim C1 counterexample: a run whose deadline (145) expires after the
last fail-fast step but before the terminal transition (at 200) — the
best-effort deletion and sampling calls are abandoned by the expired
context — still reaches `completed`, contradicting "a job whose deadline
has expired never reaches the completed state". -/
theorem completed_despite_expired_deadline :
    envLateExpiry.deadline < envLateExpiry.tEnd
    ∧ envLateExpiry.effDeletePod = none
    ∧ envLateExpiry.effGetPodMetricsNew = none
    ∧ (executeMigration envLateExpiry sampleJob initialMetrics).job.status = .completed := by
  decide

/-- Claim C2: the lifetime status sequence of a job created by
`StartMigration` and driven by `executeMigration` is
`pending, running, t` with `t` terminal — monotone in the order
`pending < running < {completed, failed}`, never re-entering `pending`,
with a single terminal write that nothing follows. -/
theorem status_order_monotone (env : Env) (id : String) (req : MigrationRequest)
    (tJob tDetails : ℕ) (m0 : MigrationMetrics) :
    ((newMigrationJob id req tJob tDetails).status ::
        (executeMigration env (newMigrationJob id req tJob tDetails) m0).statusWrites =
          [.pending, .running, .completed]
      ∨ (newMigrationJob id req tJob tDetails).status ::
        (executeMigration env (newMigrationJob id req tJob tDetails) m0).statusWrites =
          [.pending, .running, .failed])
    ∧ List.Chain' (fun a b => specStatusRank a < specStatusRank b)
        ((newMigrationJob id req tJob tDetails).status ::
          (executeMigration env (newMigrationJob id req tJob tDetails) m0).statusWrites) := by
  obtain ⟨-, -, hw, hterm⟩ := exec_characterization env (newMigrationJob id req tJob tDetails) m0
  have hpend : (newMigrationJob id req tJob tDetails).status = MigrationStatus.pending := rfl
  rcases hterm with hc | hf
  · rw [hw, hpend, hc]
    exact ⟨Or.inl rfl, by norm_num [List.chain'_cons, specStatusRank]⟩
  · rw [hw, hpend, hf]
    exact ⟨Or.inr rfl, by norm_num [List.chain'_cons, specStatusRank]⟩

/-- Claim C5 (amended): every run ends in exactly one terminal
transition; a `completed` job increments `TotalMigrations` and
`SuccessfulMigrations` by exactly one and leaves `FailedMigrations`
unchanged, while a `failed` job increments `FailedMigrations` by exactly
one and leaves `TotalMigrations` and `SuccessfulMigrations` unchanged
(the original claim's increment of `TotalMigrations` on failure does not
happen in the code). -/
theorem terminal_counter_increments (env : Env) (job0 : MigrationJob)
    (m0 : MigrationMetrics) :
    ((executeMigration env job0 m0).job.status = .completed ∨
        (executeMigration env job0 m0).job.status = .failed)
    ∧ (executeMigration env job0 m0).metrics.totalMigrations =
        m0.totalMigrations +
          (if (executeMigration env job0 m0).job.status = .completed then 1 else 0)
    ∧ (executeMigration env job0 m0).metrics.successfulMigrations =
        m0.successfulMigrations +
          (if (executeMigration env job0 m0).job.status = .completed then 1 else 0)
    ∧ (executeMigration env job0 m0).metrics.failedMigrations =
        m0.failedMigrations +
          (if (executeMigration env job0 m0).job.status = .failed then 1 else 0) :=
  ⟨(exec_characterization env job0 m0).2.2.2, (exec_counters env job0 m0).1,
    (exec_counters env job0 m0).2.1, (exec_counters env job0 m0).2.2⟩

/-- Claim C5 counterexample: a run failed by the initial pod lookup
increments `FailedMigrations` to 1 but leaves `TotalMigrations` at 0,
contradicting "a job reaching failed increments TotalMigrations ... by
exactly one". -/
theorem failed_does_not_increment_total :
    (executeMigration envPodLookupFails sampleJob initialMetrics).job.status = .failed
    ∧ (executeMigration envPodLookupFails sampleJob initialMetrics).metrics.failedMigrations = 1
    ∧ (executeMigration envPodLookupFails sampleJob initialMetrics).metrics.totalMigrations = 0 := by
  decide

/-- Claim C6 (amended): the registry write of `StartMigration` stores the
job under its ID unconditionally — an existing record under the same ID
is silently overwritten, no conflict error exists — while records under
other keys are untouched. -/
theorem register_overwrites (migrations : String → Option MigrationJob) (id : String)
    (job : MigrationJob) :
    registerJob migrations id job id = some job
    ∧ (∀ key, key ≠ id → registerJob migrations id job key = migrations key) := by
  refine ⟨by simp [registerJob], fun key hk => by simp [registerJob, hk]⟩

/-- Witness for claim C6's amended theorem: overwriting store at the
conflicting key, untouched record at another key. -/
theorem register_overwrites_witness :
    registerJob registryWithSample "migration-1a2b3c4d" jobOther "migration-1a2b3c4d" =
      some jobOther
    ∧ registerJob registryWithSample "migration-1a2b3c4d" jobOther "migration-zzzz" =
        registryWithSample "migration-zzzz" :=
  ⟨(register_overwrites registryWithSample "migration-1a2b3c4d" jobOther).1,
    (register_overwrites registryWithSample "migration-1a2b3c4d" jobOther).2
      "migration-zzzz" (by decide)⟩

/-- Claim C6 counterexample: with `sampleJob` already stored under its
ID, registering `jobOther` under the same ID neither fails nor leaves the
existing record unchanged — the stored record becomes `jobOther`. -/
theorem register_conflict_counterexample :
    registryWithSample "migration-1a2b3c4d" = some sampleJob
    ∧ registerJob registryWithSample "migration-1a2b3c4d" jobOther "migration-1a2b3c4d" =
        some jobOther
    ∧ jobOther ≠ sampleJob := by
  decide

/-- Claim C3: at the `completed` terminal transition, savings are
computed iff both resource samples are present — as
`(original − optimized) / original × 100` for cpu and memory — giving
exactly 50.0 and 40.0 on original `{cpu 2.0, mem 1000}` and optimized
`{cpu 1.0, mem 600}`; with either sample absent both savings fields are
left unchanged. -/
theorem savings_policy (env : Env) (job : MigrationJob) (m : MigrationMetrics) :
    (∀ o p, job.details.originalResources = some o →
        job.details.optimizedResources = some p →
        (completeMigration env job m).2.cpuSavings =
          ((o.cpuUsage.sub p.cpuUsage).div o.cpuUsage).mul (.finite 100)
        ∧ (completeMigration env job m).2.memorySavings =
          ((GoFloat.finite ((o.memoryUsage - p.memoryUsage : ℤ) : ℚ)).div
              (.finite (o.memoryUsage : ℚ))).mul (.finite 100))
    ∧ ((job.details.originalResources = none ∨ job.details.optimizedResources = none) →
        (completeMigration env job m).2.cpuSavings = m.cpuSavings
        ∧ (completeMigration env job m).2.memorySavings = m.memorySavings)
    ∧ (∀ t t', job.details.originalResources =
          some { cpuUsage := .finite 2, memoryUsage := 1000, timestamp := t } →
        job.details.optimizedResources =
          some { cpuUsage := .finite 1, memoryUsage := 600, timestamp := t' } →
        (completeMigration env job m).2.cpuSavings = .finite 50
        ∧ (completeMigration env job m).2.memorySavings = .finite 40) := by
  refine ⟨fun o p ho hp => completeMigration_savings_both env job m o p ho hp,
    fun h => completeMigration_savings_absent env job m h,
    fun t t' ho hp => ?_⟩
  obtain ⟨h1, h2⟩ := completeMigration_savings_both env job m _ _ ho hp
  constructor
  · rw [h1]; norm_num [GoFloat.sub, GoFloat.div, GoFloat.mul]
  · rw [h2]; norm_num [GoFloat.div, GoFloat.mul]

/-- Witness for claim C3 at a job holding the samples
`{cpu 2.0, mem 1000}` and `{cpu 1.0, mem 600}`. -/
theorem savings_policy_witness :
    (completeMigration envAllOk jobBothSamples initialMetrics).2.cpuSavings = .finite 50
    ∧ (completeMigration envAllOk jobBothSamples initialMetrics).2.memorySavings = .finite 40 :=
  (savings_policy envAllOk jobBothSamples initialMetrics).2.2 150 171 rfl rfl

/-- Claim C4 (amended): when post-migration sampling fails and an
original sample exists, the recorded optimized sample is the original
scaled by 0.5 (cpu) and 0.6 (memory, truncated to `int64`), stamped with
the current time — `{cpu 2.0, mem 1000}` yields `{cpu 1.0, mem 600}`.
(The original claim's provenance marker does not exist: the recorded
`ResourceUsage` has no such field, as the counterexample shows.) -/
theorem fallback_estimate_ratios (env : Env) (job : MigrationJob) (o : ResourceUsage)
    (hn : job.details.newPodName ≠ "")
    (hf : env.effGetPodMetricsNew = none)
    (ho : job.details.originalResources = some o) :
    (collectPostMigrationMetrics env job).details.optimizedResources =
      some (estimatedUsage env o)
    ∧ (estimatedUsage env o).cpuUsage = o.cpuUsage.mul (.finite (1 / 2))
    ∧ (estimatedUsage env o).memoryUsage = ratTrunc ((o.memoryUsage : ℚ) * (6 / 10))
    ∧ (estimatedUsage env o).timestamp = env.tFallback
    ∧ (o.cpuUsage = .finite 2 → o.memoryUsage = 1000 →
        (collectPostMigrationMetrics env job).details.optimizedResources =
          some { cpuUsage := .finite 1, memoryUsage := 600, timestamp := env.tFallback }) := by
  have h1 : (collectPostMigrationMetrics env job).details.optimizedResources =
      some (estimatedUsage env o) := by
    unfold collectPostMigrationMetrics
    rw [if_pos hn, hf, ho]
  refine ⟨h1, rfl, rfl, rfl, fun hc hm => ?_⟩
  rw [h1]
  unfold estimatedUsage
  rw [hc, hm]
  simp only [Option.some.injEq, ResourceUsage.mk.injEq]
  refine ⟨by norm_num [GoFloat.mul], ?_, trivial⟩
  have hq : ((1000 : ℤ) : ℚ) * (6 / 10) = 600 := by norm_num
  rw [ratTrunc, hq]
  norm_num

/-- Witness for claim C4's amended theorem: the estimate recorded for the
concrete run with original `{cpu 2.0, mem 1000}`. -/
theorem fallback_estimate_ratios_witness :
    (collectPostMigrationMetrics envEstimate jobWithOrig).details.optimizedResources =
      some { cpuUsage := .finite 1, memoryUsage := 600, timestamp := envEstimate.tFallback } :=
  (fallback_estimate_ratios envEstimate jobWithOrig origSample (by decide) (by decide)
      rfl).2.2.2.2 rfl rfl

/-- Claim C4 counterexample: the estimated sample recorded on sampling
failure equals, field for field, the sample recorded by a run whose
measurement succeeded with the same values — the stored record carries no
provenance marker distinguishing the two. -/
theorem fallback_estimate_no_provenance_marker :
    envEstimate.effGetPodMetricsNew = none
    ∧ (envMeasured.effGetPodMetricsNew).isSome = true
    ∧ (collectPostMigrationMetrics envEstimate jobWithOrig).details.optimizedResources =
        (collectPostMigrationMetrics envMeasured jobWithOrig).details.optimizedResources := by
  refine ⟨rfl, rfl, ?_⟩
  have hL : (collectPostMigrationMetrics envEstimate jobWithOrig).details.optimizedResources =
      some (estimatedUsage envEstimate origSample) := rfl
  have hR : (collectPostMigrationMetrics envMeasured jobWithOrig).details.optimizedResources =
      some optSample := rfl
  rw [hL, hR]
  show some ({ cpuUsage := (GoFloat.finite 2).mul (.finite (1 / 2))
             , memoryUsage := ratTrunc (((1000 : ℤ) : ℚ) * (6 / 10))
             , timestamp := 171 } : ResourceUsage) =
       some ({ cpuUsage := .finite 1, memoryUsage := 600, timestamp := 171 } : ResourceUsage)
  simp only [Option.some.injEq, ResourceUsage.mk.injEq]
  refine ⟨by norm_num [GoFloat.mul], ?_, trivial⟩
  have hq : ((1000 : ℤ) : ℚ) * (6 / 10) = 600 := by norm_num
  rw [ratTrunc, hq]
  norm_num

/-- Claim C7: failures of the best-effort steps (original-pod deletion,
post-migration metrics collection) never change the terminal outcome —
whenever every fail-fast call succeeds, the job reaches `completed`, for
every outcome of the two best-effort calls. -/
theorem best_effort_failures_preserve_completion (env : Env) (job0 : MigrationJob)
    (m0 : MigrationMetrics)
    (h1 : env.effGetPod1.isSome = true)
    (h2 : env.effGetContainerStates.isSome = true)
    (h3 : job0.request.preservePV = true → env.effCreatePVC.isSome = true)
    (h4 : env.effGetPod2.isSome = true)
    (h5 : env.effCreateOptimizedPod.isSome = true)
    (h6 : env.effWaitForPodReady.isSome = true) :
    (executeMigration env job0 m0).job.status = .completed := by
  rcases Option.isSome_iff_exists.mp h1 with ⟨u1, e1⟩
  rcases Option.isSome_iff_exists.mp h2 with ⟨u2, e2⟩
  rcases Option.isSome_iff_exists.mp h4 with ⟨u4, e4⟩
  rcases Option.isSome_iff_exists.mp h5 with ⟨u5, e5⟩
  rcases Option.isSome_iff_exists.mp h6 with ⟨u6, e6⟩
  obtain ⟨hiff, -, -, hterm⟩ := exec_characterization env job0 m0
  rcases hterm with hc | hfail
  · exact hc
  · exfalso
    have hs := hiff.mp hfail
    cases hp : job0.request.preservePV
    · simp [specFirstFailFast, e1, e2, e4, e5, e6, hp] at hs
    · rcases Option.isSome_iff_exists.mp (h3 hp) with ⟨u3, e3⟩
      simp [specFirstFailFast, e1, e2, e3, e4, e5, e6, hp] at hs

/-- Witness for claim C7 at a run whose best-effort deletion and sampling
calls both fail. -/
theorem best_effort_failures_preserve_completion_witness :
    envBestEffortFail.effDeletePod = none
    ∧ envBestEffortFail.effGetPodMetricsNew = none
    ∧ (executeMigration envBestEffortFail sampleJob initialMetrics).job.status = .completed :=
  ⟨by decide, by decide,
    best_effort_failures_preserve_completion envBestEffortFail sampleJob initialMetrics
      (by decide) (by decide) (fun _ => by decide) (by decide) (by decide) (by decide)⟩

/-- Claim C8: every terminal job carries `EndTime = tEnd` (the terminal
transition's clock reading) and `Duration = EndTime − StartTime` exactly,
with `EndTime ≥ StartTime` under clock monotonicity; the run performs
exactly one terminal status write, and none of the pipeline's mutating
steps touches `EndTime`/`Duration` — so both fields are written exactly
once, at the terminal transition. -/
theorem terminal_time_stamps (env : Env) (job0 : MigrationJob) (m0 : MigrationMetrics)
    (hclock : job0.startTime ≤ env.tEnd) :
    (executeMigration env job0 m0).job.details.endTime = some env.tEnd
    ∧ (executeMigration env job0 m0).job.details.duration =
        some ((env.tEnd : ℤ) - (job0.startTime : ℤ))
    ∧ (∀ t, (executeMigration env job0 m0).job.details.endTime = some t →
        job0.startTime ≤ t)
    ∧ (∀ t d, (executeMigration env job0 m0).job.details.endTime = some t →
        (executeMigration env job0 m0).job.details.duration = some d →
        d = (t : ℤ) - (job0.startTime : ℤ))
    ∧ (executeMigration env job0 m0).statusWrites.countP (fun s => specIsTerminal s) = 1
    ∧ (∀ j j', captureContainerStates env j = some j' →
        j'.details.endTime = j.details.endTime ∧ j'.details.duration = j.details.duration)
    ∧ (∀ j pvc j', createOptimizedPod env j pvc = some j' →
        j'.details.endTime = j.details.endTime ∧ j'.details.duration = j.details.duration)
    ∧ (∀ j, (collectPostMigrationMetrics env j).details.endTime = j.details.endTime
        ∧ (collectPostMigrationMetrics env j).details.duration = j.details.duration) := by
  obtain ⟨het, hdur⟩ := exec_times env job0 m0
  obtain ⟨-, -, hw, hterm⟩ := exec_characterization env job0 m0
  refine ⟨het, hdur, ?_, ?_, ?_, capture_preserves env, createOpt_preserves env,
    fun j => ⟨collect_endTime env j, collect_duration env j⟩⟩
  · intro t ht
    rw [het] at ht
    have h := Option.some.inj ht
    subst h
    exact hclock
  · intro t d ht hd
    rw [het] at ht
    rw [hdur] at hd
    have h1 := Option.some.inj ht
    have h2 := Option.some.inj hd
    subst h1
    subst h2
    rfl
  · rw [hw]
    rcases hterm with hc | hf
    · rw [hc]; rfl
    · rw [hf]; rfl

/-- Witness for claim C8 at the all-success run (clock hypothesis
`100 ≤ 200` discharged concretely). -/
theorem terminal_time_stamps_witness :
    (executeMigration envAllOk sampleJob initialMetrics).job.details.endTime =
        some envAllOk.tEnd
    ∧ (executeMigration envAllOk sampleJob initialMetrics).job.details.duration =
        some ((envAllOk.tEnd : ℤ) - (sampleJob.startTime : ℤ))
    ∧ (∀ t, (executeMigration envAllOk sampleJob initialMetrics).job.details.endTime = some t →
        sampleJob.startTime ≤ t)
    ∧ (∀ t d, (executeMigration envAllOk sampleJob initialMetrics).job.details.endTime = some t →
        (executeMigration envAllOk sampleJob initialMetrics).job.details.duration = some d →
        d = (t : ℤ) - (sampleJob.startTime : ℤ))
    ∧ (executeMigration envAllOk sampleJob initialMetrics).statusWrites.countP
        (fun s => specIsTerminal s) = 1
    ∧ (∀ j j', captureContainerStates envAllOk j = some j' →
        j'.details.endTime = j.details.endTime ∧ j'.details.duration = j.details.duration)
    ∧ (∀ j pvc j', createOptimizedPod envAllOk j pvc = some j' →
        j'.details.endTime = j.details.endTime ∧ j'.details.duration = j.details.duration)
    ∧ (∀ j, (collectPostMigrationMetrics envAllOk j).details.endTime = j.details.endTime
        ∧ (collectPostMigrationMetrics envAllOk j).details.duration = j.details.duration) :=
  terminal_time_stamps envAllOk sampleJob initialMetrics (by decide)

/-- Claim C9: the implicit invariant `TotalMigrations =
SuccessfulMigrations` is preserved by every run (only the `completed`
transition increments `TotalMigrations`; the `failed` transition
increments `FailedMigrations` alone), and the running average changes
only on `completed`, where its divisor is the incremented
`TotalMigrations` — so it averages over successful jobs only. -/
theorem total_equals_successful_invariant (env : Env) (job0 : MigrationJob)
    (m0 : MigrationMetrics)
    (hinv : m0.totalMigrations = m0.successfulMigrations)
    (hnn : 0 ≤ m0.totalMigrations) :
    (executeMigration env job0 m0).metrics.totalMigrations =
      (executeMigration env job0 m0).metrics.successfulMigrations
    ∧ ((executeMigration env job0 m0).job.status = .failed →
        (executeMigration env job0 m0).metrics.averageDuration = m0.averageDuration)
    ∧ ((executeMigration env job0 m0).job.status = .completed →
        (executeMigration env job0 m0).metrics.averageDuration =
          (m0.averageDuration * (m0.totalMigrations + 1 - 1) +
            ((env.tEnd : ℤ) - (job0.startTime : ℤ))).tdiv (m0.totalMigrations + 1)
        ∧ (executeMigration env job0 m0).metrics.totalMigrations =
            m0.totalMigrations + 1) := by
  obtain ⟨ht, hs, -⟩ := exec_counters env job0 m0
  have ha := exec_avg env job0 m0 hnn
  refine ⟨by rw [ht, hs, hinv], ?_, ?_⟩
  · intro hfail
    rw [ha, if_neg]
    rw [hfail]
    intro hcontra
    exact MigrationStatus.noConfusion hcontra
  · intro hcomp
    exact ⟨by rw [ha, if_pos hcomp], by rw [ht, if_pos hcomp]⟩

/-- Witness for claim C9 at the all-success run starting from the
zero-valued process metrics. -/
theorem total_equals_successful_invariant_witness :
    (executeMigration envAllOk sampleJob initialMetrics).metrics.totalMigrations =
      (executeMigration envAllOk sampleJob initialMetrics).metrics.successfulMigrations
    ∧ ((executeMigration envAllOk sampleJob initialMetrics).job.status = .failed →
        (executeMigration envAllOk sampleJob initialMetrics).metrics.averageDuration =
          initialMetrics.averageDuration)
    ∧ ((executeMigration envAllOk sampleJob initialMetrics).job.status = .completed →
        (executeMigration envAllOk sampleJob initialMetrics).metrics.averageDuration =
          (initialMetrics.averageDuration * (initialMetrics.totalMigrations + 1 - 1) +
            ((envAllOk.tEnd : ℤ) - (sampleJob.startTime : ℤ))).tdiv
              (initialMetrics.totalMigrations + 1)
        ∧ (executeMigration envAllOk sampleJob initialMetrics).metrics.totalMigrations =
            initialMetrics.totalMigrations + 1) :=
  total_equals_successful_invariant envAllOk sampleJob initialMetrics rfl (by decide)

/-- Claim C10: with the original metrics collection failing (step 1 then
records the zero-value default sample) and post-migration sampling
failing (the estimate is scaled from the zero sample), the run completes
with both samples present and the savings division by the zero original
produces NaN: both stored savings are non-finite. -/
theorem zero_original_sample_nonfinite_savings :
    (executeMigration envZeroOriginal sampleJob initialMetrics).job.status = .completed
    ∧ (executeMigration envZeroOriginal sampleJob
        initialMetrics).job.details.originalResources.isSome = true
    ∧ (executeMigration envZeroOriginal sampleJob
        initialMetrics).job.details.optimizedResources.isSome = true
    ∧ (executeMigration envZeroOriginal sampleJob initialMetrics).metrics.cpuSavings = .nan
    ∧ (executeMigration envZeroOriginal sampleJob initialMetrics).metrics.memorySavings = .nan
    ∧ GoFloat.isFinite
        (executeMigration envZeroOriginal sampleJob initialMetrics).metrics.cpuSavings = false
    ∧ GoFloat.isFinite
        (executeMigration envZeroOriginal sampleJob
          initialMetrics).metrics.memorySavings = false := by
  have hcpu : (executeMigration envZeroOriginal sampleJob initialMetrics).metrics.cpuSavings =
      (((GoFloat.finite 0).sub ((GoFloat.finite 0).mul (.finite (1 / 2)))).div
        (GoFloat.finite 0)).mul (.finite 100) := rfl
  have hmem : (executeMigration envZeroOriginal sampleJob initialMetrics).metrics.memorySavings =
      ((GoFloat.finite (((0 : ℤ) - ratTrunc (((0 : ℤ) : ℚ) * (6 / 10)) : ℤ) : ℚ)).div
        (GoFloat.finite ((0 : ℤ) : ℚ))).mul (.finite 100) := rfl
  have h0 : ratTrunc (((0 : ℤ) : ℚ) * (6 / 10)) = 0 := by
    rw [ratTrunc]
    norm_num
  have hc : (executeMigration envZeroOriginal sampleJob initialMetrics).metrics.cpuSavings =
      .nan := by
    rw [hcpu]
    norm_num [GoFloat.sub, GoFloat.mul, GoFloat.div]
  have hm : (executeMigration envZeroOriginal sampleJob initialMetrics).metrics.memorySavings =
      .nan := by
    rw [hmem, h0]
    norm_num [GoFloat.div, GoFloat.mul]
  exact ⟨rfl, rfl, rfl, hc, hm, by rw [hc]; rfl, by rw [hm]; rfl⟩
